import Mathlib

/-!
Verification of the interview orchestration core of the Bot-interviewer
backend (`backend/services/interview_service.py`), as a shallow embedding.

Python dicts `{"role": ..., "content": ...}` become the `Msg` structure;
Python strings become `String`; the external collaborators (Groq chat
completion, Deepgram speech synthesis, the filesystem, `json.loads`,
`base64.b64encode`) become explicit oracle parameters, so that every
embedded function is a pure, executable Lean function.  Mutation of the
service instance (`self.candidate_name`) is modelled by explicit state
passing of `SvcState`; aliasing of Python list/dict values is modelled,
where a claim is about it, by an explicit heap of message objects.
-/

namespace BotInterviewer

/-- A conversation message, the Python dict `{"role": r, "content": c}`.
The service only ever reads the two keys `"role"` and `"content"`. -/
structure Msg where
  role : String
  content : String
  deriving DecidableEq, Repr

/-- The assistant-entry count used by `determine_phase`
(`sum(1 for msg in messages if msg.get("role") == "assistant")`). -/
def assistantCount (messages : List Msg) : Nat :=
  (messages.filter (fun msg => msg.role == "assistant")).length

/-- `InterviewService.determine_phase` (interview_service.py lines 32-42):
count the messages whose role is `"assistant"` and map the count through
the threshold chain 1 / 4 / 7. -/
def determine_phase (messages : List Msg) : String :=
  let assistant_count := assistantCount messages
  if assistant_count ≤ 1 then "INTRODUCTION"
  else if assistant_count ≤ 4 then "TECHNICAL"
  else if assistant_count ≤ 7 then "BEHAVIORAL"
  else "WRAP_UP"

/-- Position of a phase name in the order
INTRODUCTION < TECHNICAL < BEHAVIORAL < WRAP_UP. -/
def phaseRank (phase : String) : Nat :=
  if phase == "INTRODUCTION" then 0
  else if phase == "TECHNICAL" then 1
  else if phase == "BEHAVIORAL" then 2
  else 3

theorem phaseRank_INTRODUCTION : phaseRank "INTRODUCTION" = 0 := by decide

theorem phaseRank_TECHNICAL : phaseRank "TECHNICAL" = 1 := by decide

theorem phaseRank_BEHAVIORAL : phaseRank "BEHAVIORAL" = 2 := by decide

theorem phaseRank_WRAP_UP : phaseRank "WRAP_UP" = 3 := by decide

/-- C1: `determine_phase` depends only on the number `a` of entries whose
role is `"assistant"`: `a ∈ {0,1}` gives INTRODUCTION, `a ∈ {2,3,4}`
TECHNICAL, `a ∈ {5,6,7}` BEHAVIORAL, `a ≥ 8` WRAP_UP; entries of any
other role never affect the result (filtering the list down to its
assistant entries first yields the same phase), and the function is total
over any list, the empty one included. -/
theorem determine_phase_thresholds (messages : List Msg) :
    (assistantCount messages ≤ 1 → determine_phase messages = "INTRODUCTION") ∧
    (2 ≤ assistantCount messages ∧ assistantCount messages ≤ 4 →
      determine_phase messages = "TECHNICAL") ∧
    (5 ≤ assistantCount messages ∧ assistantCount messages ≤ 7 →
      determine_phase messages = "BEHAVIORAL") ∧
    (8 ≤ assistantCount messages → determine_phase messages = "WRAP_UP") ∧
    determine_phase messages =
      determine_phase (messages.filter (fun msg => msg.role == "assistant")) := by
  have hfilter :
      assistantCount (messages.filter (fun msg => msg.role == "assistant")) =
        assistantCount messages := by
    simp [assistantCount, List.filter_filter]
  refine ⟨?_, ?_, ?_, ?_, ?_⟩ <;>
    simp only [determine_phase, hfilter] <;>
    intros <;>
    split_ifs <;>
    first | rfl | omega

/-- C1 witness: a transcript with two assistant entries and one user entry
is classified TECHNICAL through the threshold theorem. -/
theorem determine_phase_thresholds_witness :
    2 ≤ assistantCount [⟨"assistant", "hi"⟩, ⟨"user", "hello"⟩, ⟨"assistant", "go on"⟩] ∧
    determine_phase [⟨"assistant", "hi"⟩, ⟨"user", "hello"⟩, ⟨"assistant", "go on"⟩] =
      "TECHNICAL" :=
  ⟨by decide, (determine_phase_thresholds _).2.1 (by decide)⟩

/-- C2: growing a transcript never moves the phase backwards: for every
message list `m` and every extension `m ++ ext` of it, the phase of
`m ++ ext` is at least the phase of `m` in the order
INTRODUCTION < TECHNICAL < BEHAVIORAL < WRAP_UP. -/
theorem determine_phase_monotone (m ext : List Msg) :
    phaseRank (determine_phase m) ≤ phaseRank (determine_phase (m ++ ext)) := by
  have hlen : assistantCount m ≤ assistantCount (m ++ ext) := by
    simp [assistantCount, List.filter_append]
  simp only [determine_phase]
  split_ifs <;>
    simp only [phaseRank_INTRODUCTION, phaseRank_TECHNICAL, phaseRank_BEHAVIORAL,
      phaseRank_WRAP_UP] <;>
    omega

/-! ### The verified-name annotation, with Python aliasing made explicit (C5)

`generate_interview_response` (lines 268-276) runs

    api_messages_copy = messages.copy()
    if api_messages_copy and api_messages_copy[-1].get("role") == "user":
        original_content = api_messages_copy[-1]["content"]
        api_messages_copy[-1] = {"role": "user", "content": f"[System verified name: {candidate_name}] {original_content}"}

`messages.copy()` is a shallow copy: the new list holds references to the
same dict objects.  To settle whether the caller's history can be mutated
we model the dicts as objects in a heap (`Heap`), a Python list as a list
of references into that heap, `list.copy()` as copying the reference list,
and the slot assignment `api_messages_copy[-1] = {...}` as allocating a
fresh dict at the end of the heap and repointing only the copy's last slot
at it.  The heap is append-only exactly because the source never assigns
into an existing dict (it builds a new dict literal). -/

/-- The object heap: message dicts addressed by allocation index. -/
abbrev Heap := List Msg

/-- Dereference a message object. -/
def heapGet (heap : Heap) (r : Nat) : Msg := heap.getD r ⟨"", ""⟩

/-- Lines 268-276 of `generate_interview_response` over the explicit heap:
returns the heap after the step and the reference list the outgoing
request will use (`api_messages_copy`). -/
def annotate_history (heap : Heap) (messages : List Nat) (candidate_name : String) :
    Heap × List Nat :=
  let api_messages_copy := messages
  match api_messages_copy.getLast? with
  | none => (heap, api_messages_copy)
  | some r =>
    if (heapGet heap r).role == "user" then
      let original_content := (heapGet heap r).content
      (heap ++ [⟨"user", "[System verified name: " ++ candidate_name ++ "] "
          ++ original_content⟩],
       api_messages_copy.dropLast ++ [heap.length])
    else (heap, api_messages_copy)

/-- C5: when the last caller-supplied entry is user-authored, the
annotation step (a) leaves every pre-existing message object in the heap
unchanged — in particular the caller's list, which still holds its
original references, dereferences to exactly the messages it held before
the call — and (b) the outgoing copy dereferences to the original history
with only its last entry's content prefixed by
`"[System verified name: <name>] "`. -/
theorem annotate_history_spec (heap : Heap) (messages : List Nat) (candidate_name : String)
    (hvalid : ∀ r ∈ messages, r < heap.length)
    (last : Nat) (hlast : messages.getLast? = some last)
    (huser : (heapGet heap last).role = "user") :
    (∀ r, r < heap.length →
      heapGet (annotate_history heap messages candidate_name).1 r = heapGet heap r) ∧
    (messages.map (heapGet (annotate_history heap messages candidate_name).1) =
      messages.map (heapGet heap)) ∧
    ((annotate_history heap messages candidate_name).2.map
        (heapGet (annotate_history heap messages candidate_name).1) =
      (messages.map (heapGet heap)).dropLast ++
        [⟨"user", "[System verified name: " ++ candidate_name ++ "] "
            ++ (heapGet heap last).content⟩]) := by
  have hcond : ((heapGet heap last).role == "user") = true := by
    simp [huser]
  have hunfold : annotate_history heap messages candidate_name =
      (heap ++ [⟨"user", "[System verified name: " ++ candidate_name ++ "] "
          ++ (heapGet heap last).content⟩],
       messages.dropLast ++ [heap.length]) := by
    simp [annotate_history, hlast, hcond]
  have hpreserve : ∀ r, r < heap.length →
      heapGet (annotate_history heap messages candidate_name).1 r = heapGet heap r := by
    intro r hr
    rw [hunfold]
    exact List.getD_append _ _ _ _ hr
  refine ⟨hpreserve, ?_, ?_⟩
  · exact List.map_congr_left fun r hr => hpreserve r (hvalid r hr)
  · rw [hunfold]
    simp only [List.map_append, List.map_cons, List.map_nil]
    have hnew : heapGet (heap ++ [⟨"user", "[System verified name: " ++ candidate_name
        ++ "] " ++ (heapGet heap last).content⟩]) heap.length =
        ⟨"user", "[System verified name: " ++ candidate_name ++ "] "
          ++ (heapGet heap last).content⟩ := by
      rw [heapGet, List.getD_append_right _ _ _ _ (Nat.le_refl _)]
      simp
    rw [hnew]
    have hdrop : messages.dropLast.map (heapGet (heap ++ [⟨"user",
        "[System verified name: " ++ candidate_name ++ "] "
          ++ (heapGet heap last).content⟩])) =
        messages.dropLast.map (heapGet heap) :=
      List.map_congr_left fun r hr =>
        List.getD_append _ _ _ _ (hvalid r (List.dropLast_subset _ hr))
    rw [hdrop, List.map_dropLast]

/-- C5 witness: a one-message history `[{"role": "user", "content": "hi"}]`
annotated for candidate `"Bob"`: the original object is untouched and the
outgoing copy carries the prefixed content. -/
theorem annotate_history_spec_witness :
    (∀ r ∈ [0], r < ([⟨"user", "hi"⟩] : Heap).length) ∧
    ([0] : List Nat).getLast? = some 0 ∧
    (heapGet [⟨"user", "hi"⟩] 0).role = "user" ∧
    (([0] : List Nat).map (heapGet (annotate_history [⟨"user", "hi"⟩] [0] "Bob").1) =
      [0].map (heapGet [⟨"user", "hi"⟩])) ∧
    ((annotate_history [⟨"user", "hi"⟩] [0] "Bob").2.map
        (heapGet (annotate_history [⟨"user", "hi"⟩] [0] "Bob").1) =
      [⟨"user", "[System verified name: Bob] hi"⟩]) := by
  have h := annotate_history_spec [⟨"user", "hi"⟩] [0] "Bob" (by decide) 0 (by decide)
    (by decide)
  exact ⟨by decide, by decide, by decide, h.2.1, by
    rw [h.2.2]
    decide⟩

/-! ### The speech sanitizer (C8)

`InterviewService._sanitize_for_speech` (lines 293-333) applies, in dict
insertion order, the substitutions `re.sub(pattern, replacement, text,
flags=re.IGNORECASE)` where every pattern is `\b<literal>\b` for a literal
whose first and last characters are word characters.  We embed that exact
regex fragment: a match of `\b<literal>\b` at a position requires the
previous character (if any) to be a non-word character, the literal to
match case-insensitively, and the following character (if any) to be a
non-word character; `re.sub` scans left to right, replaces every
non-overlapping match, and never rescans replacement text within the same
call.  The scan is written with explicit fuel (the remaining input length
bounds the number of scan steps). -/

/-- Python's `\w` over the ASCII inputs the service handles. -/
def isWordChar (c : Char) : Bool := c.isAlphanum || c == '_'

/-- One character of a case-insensitive literal match (`re.IGNORECASE`). -/
def charMatches (p c : Char) : Bool := p.toLower == c.toLower

/-- Match the literal `pat` case-insensitively at the head of `s`,
returning the rest of `s` on success. -/
def matchesAt : List Char → List Char → Option (List Char)
  | [], rest => some rest
  | _ :: _, [] => none
  | p :: ps, c :: cs => if charMatches p c then matchesAt ps cs else none

/-- The `\b` before the literal: start of string or a non-word character. -/
def noWordBefore : Option Char → Bool
  | none => true
  | some c => !isWordChar c

/-- The `\b` after the literal: end of string or a non-word character. -/
def noWordAfter : List Char → Bool
  | [] => true
  | c :: _ => !isWordChar c

/-- The left-to-right scan of `re.sub(r"\b<pat>\b", repl, s, re.IGNORECASE)`:
`prev` is the character just before the scan position in the original
string.  On a match the scan resumes after the matched characters (no
overlap, replacements are not rescanned). -/
def subAux (pat repl : List Char) : Nat → Option Char → List Char → List Char
  | _, _, [] => []
  | 0, _, s => s
  | fuel + 1, prev, c :: cs =>
    if noWordBefore prev then
      match matchesAt pat (c :: cs) with
      | some rest =>
        if noWordAfter rest then
          repl ++ subAux pat repl fuel ((c :: cs).take pat.length).getLast? rest
        else
          c :: subAux pat repl fuel (some c) cs
      | none => c :: subAux pat repl fuel (some c) cs
    else
      c :: subAux pat repl fuel (some c) cs

/-- `re.sub(r"\b" + pat + r"\b", repl, text, flags=re.IGNORECASE)` for a
literal `pat` whose first and last characters are word characters (true of
every pattern in the service's table). -/
def reSubWord (pat repl text : String) : String :=
  String.mk (subAux pat.data repl.data text.data.length none text.data)

/-- Whether the scan of `\b<pat>\b` finds a match anywhere in `s`, starting
with `prev` before the scan position. -/
def hasMatchAux (pat : List Char) : Option Char → List Char → Bool
  | _, [] => false
  | prev, c :: cs =>
    (noWordBefore prev &&
      (match matchesAt pat (c :: cs) with
       | some rest => noWordAfter rest
       | none => false)) ||
    hasMatchAux pat (some c) cs

/-- Whether `re.search(r"\b<pat>\b", text, re.IGNORECASE)` would find a
match: the pattern occurs as a whole word somewhere in `text`. -/
def hasWordMatch (pat text : String) : Bool :=
  hasMatchAux pat.data none text.data

/-- Python's substring test `needle in haystack` on strings as character
lists. -/
def strContains (needle : List Char) : List Char → Bool
  | [] => needle.isEmpty
  | c :: tail => needle.isPrefixOf (c :: tail) || strContains needle tail

/-- The `replace_map` of `_sanitize_for_speech`, in dict insertion order;
each source key `r"\bX\b"` is stored here as its literal `X` (the `\b`
markers are what `reSubWord` implements). -/
def replace_map : List (String × String) := [
  ("AWS", "A. W. S."),
  ("SQL", "Sequel"),
  ("API", "A. P. I."),
  ("CEO", "C. E. O."),
  ("CTO", "C. T. O."),
  ("UI", "U. I."),
  ("UX", "U. X."),
  ("URL", "U. R. L."),
  ("SaaS", "Sass"),
  ("CI/CD", "C. I. C. D."),
  ("JWT", "J. W. T."),
  ("Kubernetes", "Koo-ber-net-ees"),
  ("gRPC", "G. R. P. C."),
  ("JSON", "Jay-sawn"),
  ("resume", "reh-zoo-may"),
  ("Resume", "Reh-zoo-may"),
  ("live", "lye-v")
]

/-- `InterviewService._sanitize_for_speech` (lines 293-333): the fixed
table, extended by one rule `\b<candidate_name>\b → "Zaa-eem"` when a
candidate name is set and contains `"Zayeem"` (the source builds that
pattern with `re.escape`, so the name is matched literally), is applied
to the text as a left-to-right sequence of global substitutions, each
acting on the output of the previous one. -/
def _sanitize_for_speech (candidate_name : Option String) (text : String) : String :=
  let full_map :=
    match candidate_name with
    | some n =>
      if strContains "Zayeem".data n.data then replace_map ++ [(n, "Zaa-eem")]
      else replace_map
    | none => replace_map
  full_map.foldl (fun t rule => reSubWord rule.1 rule.2 t) text

/-- A scan that finds no whole-word match substitutes nothing. -/
theorem subAux_eq_of_hasMatchAux_false (pat repl : List Char) :
    ∀ (s : List Char) (fuel : Nat) (prev : Option Char),
      hasMatchAux pat prev s = false → subAux pat repl fuel prev s = s := by
  intro s
  induction s with
  | nil => intro fuel prev _; cases fuel <;> rfl
  | cons c cs ih =>
    intro fuel prev h
    cases fuel with
    | zero => rfl
    | succ n =>
      simp only [hasMatchAux, Bool.or_eq_false_iff, Bool.and_eq_false_iff] at h
      obtain ⟨h1, h2⟩ := h
      have ihc := ih n (some c) h2
      simp only [subAux]
      rcases h1 with h1 | h1
      · simp [h1, ihc]
      · cases hm : matchesAt pat (c :: cs) with
        | none => simp [hm, ihc]
        | some rest =>
          rw [hm] at h1
          simp only at h1
          simp [hm, h1, ihc]

/-- A rule whose pattern has no whole-word occurrence leaves the text
unchanged. -/
theorem reSubWord_eq_of_no_match (pat repl text : String)
    (h : hasWordMatch pat text = false) : reSubWord pat repl text = text := by
  have h' : hasMatchAux pat.data none text.data = false := h
  rw [reSubWord,
    subAux_eq_of_hasMatchAux_false pat.data repl.data text.data text.data.length none h']

/-- A sequence of rules none of whose patterns occurs in the text leaves
the text unchanged. -/
theorem foldl_reSubWord_eq_of_no_match (rules : List (String × String)) :
    ∀ text : String, (∀ rule ∈ rules, hasWordMatch rule.1 text = false) →
      rules.foldl (fun t rule => reSubWord rule.1 rule.2 t) text = text := by
  induction rules with
  | nil => intro text _; rfl
  | cons rule rules ih =>
    intro text h
    have h0 : reSubWord rule.1 rule.2 text = text :=
      reSubWord_eq_of_no_match _ _ _ (h rule (List.mem_cons_self _ _))
    simp only [List.foldl_cons, h0]
    exact ih text fun r hr => h r (List.mem_cons_of_mem _ hr)

/-- C8: `_sanitize_for_speech` is the left-to-right fold of the ordered
substitution table, each rule a case-insensitive whole-word global
substitution on the current state of the string (that fold is its
definition above, translated from the source loop).  Consequently:
`"AWS"` is rewritten to `"A. W. S."` and the result no longer contains a
standalone `AWS` token; an occurrence embedded in a longer token
(`"SQL"` inside `"PostgreSQL"`) is not altered; and any text in which no
rule's pattern has a whole-word occurrence is returned unchanged. -/
theorem sanitize_for_speech_spec :
    _sanitize_for_speech none "AWS" = "A. W. S." ∧
    hasWordMatch "AWS" (_sanitize_for_speech none "AWS") = false ∧
    _sanitize_for_speech none "PostgreSQL" = "PostgreSQL" ∧
    (∀ text : String, (∀ rule ∈ replace_map, hasWordMatch rule.1 text = false) →
      _sanitize_for_speech none text = text) := by
  refine ⟨by decide, by decide, by decide, ?_⟩
  intro text h
  exact foldl_reSubWord_eq_of_no_match replace_map text h

/-- C8 witness: no rule matches `"Hello there"`, and the sanitizer indeed
returns it unchanged. -/
theorem sanitize_for_speech_spec_witness :
    (∀ rule ∈ replace_map, hasWordMatch rule.1 "Hello there" = false) ∧
    _sanitize_for_speech none "Hello there" = "Hello there" :=
  ⟨by decide, sanitize_for_speech_spec.2.2.2 "Hello there" (by decide)⟩

/-! ### The prompt assembler (C9)

`build_interview_system_prompt` uses `str.lower`, `str.upper`,
`str.replace` and `dict.get`; we embed those Python primitives first
(ASCII case mapping, which covers every key the function compares, and
left-to-right non-overlapping literal replacement). -/

/-- Python `str.lower()` (ASCII). -/
def strLower (s : String) : String := String.mk (s.data.map Char.toLower)

/-- Python `str.upper()` (ASCII). -/
def strUpper (s : String) : String := String.mk (s.data.map Char.toUpper)

/-- The scan of Python `str.replace(pat, repl)`: left to right,
non-overlapping, replacements not rescanned. -/
def replaceAll (pat repl : List Char) : Nat → List Char → List Char
  | _, [] => []
  | 0, s => s
  | fuel + 1, c :: cs =>
    if pat.isPrefixOf (c :: cs) then
      repl ++ replaceAll pat repl fuel ((c :: cs).drop pat.length)
    else
      c :: replaceAll pat repl fuel cs

/-- Python `s.replace(pat, repl)` for non-empty `pat`. -/
def strReplace (s pat repl : String) : String :=
  String.mk (replaceAll pat.data repl.data s.data.length s.data)

/-- Python `d.get(key, default)` over a dict kept as an insertion-ordered
association list. -/
def dictGet (m : List (String × String)) (key : String) (default : String) : String :=
  (m.lookup key).getD default

/-- The `'easy'` entry of `difficulty_instructions`. -/
def easy_mode_block : String :=
  "
                **EASY MODE - Foundational & Encouraging**
                - Focus on DEFINITIONS and BASIC CONCEPTS (e.g., \"What is a class?\", \"What is an API?\")
                - Ask about HIGH-LEVEL understanding without deep implementation details
                - Include SOFT SKILLS questions (teamwork, communication, work style)
                - Be ENCOURAGING and supportive in your responses
                - Examples: \"What does OOP mean?\", \"How do you handle feedback?\", \"Tell me about a time you worked in a team\"
                - Avoid: System design, optimization, trade-offs, complex algorithms
                "

/-- The `'medium'` entry of `difficulty_instructions`. -/
def medium_mode_block : String :=
  "
                **MEDIUM MODE - Implementation & Practical Experience**
                - Focus on IMPLEMENTATION DETAILS and real-world scenarios
                - Ask about STANDARD PATTERNS and best practices (e.g., \"How do you handle API errors?\", \"Explain your approach to testing\")
                - Explore TRADE-OFFS between different solutions
                - Ask for CONCRETE EXAMPLES from past experience
                - Examples: \"How would you structure a REST API?\", \"What's your debugging process?\", \"Explain async/await\"
                - Balance: Some theory, mostly practical application
                "

/-- The `'hard'` entry of `difficulty_instructions`. -/
def hard_mode_block : String :=
  "
                **HARD MODE - System Design & Deep Expertise**
                - Focus on SYSTEM DESIGN and SCALABILITY (e.g., \"How would you scale this for 1M users?\")
                - Ask about EDGE CASES, failure scenarios, and performance bottlenecks
                - Explore OPTIMIZATION strategies (time/space complexity, caching, sharding)
                - CHALLENGE ASSUMPTIONS - make them defend their architectural decisions
                - Examples: \"Design a URL shortener at scale\", \"How would you handle eventual consistency?\", \"Optimize this for 10k requests/sec\"
                - Expect: Deep technical knowledge, real production experience, trade-off analysis
                "

/-- The `'INTRODUCTION'` entry of `phase_instructions`. -/
def introduction_phase_block : String :=
  "
                **CURRENT PHASE: INTRODUCTION**

                **YOUR IMMEDIATE GOAL:**
                - Warmly welcome \x7bcandidate_name\x7d to the interview
                - Keep it BRIEF (1-2 sentences max)
                - Ask them to introduce themselves and briefly describe their background
                - DO NOT ask technical questions yet - save those for the next phase

                **Example Response:**
                \"Hi \x7bcandidate_name\x7d, thanks for joining me today. Could you tell me a bit about yourself and your background?\"

                **CONSTRAINTS:**
                - Keep your response under 2 sentences
                - Focus ONLY on getting their introduction
                - Be warm but professional
                "

/-- The `'TECHNICAL'` entry of `phase_instructions`. -/
def technical_phase_block : String :=
  "
                **CURRENT PHASE: TECHNICAL DEEP DIVE**

                **YOUR IMMEDIATE GOAL:**
                - Pick ONE specific skill from their resume (e.g., Python, React, AWS, etc.)
                - Ask a HARD, SPECIFIC technical question about that skill
                - Do NOT accept vague answers - probe for details
                - Focus on implementation, not just theory

                **What to Cover:**
                - Architecture decisions
                - Code quality and best practices  
                - Problem-solving approach
                - Real-world experience with the technology

                **Example Questions:**
                - \"I see you used React - how do you handle state management in large applications?\"
                - \"You mentioned Python - explain your approach to async programming and when you'd use it\"
                - \"Tell me about a time you had to optimize database queries. What was your approach?\"

                **CONSTRAINTS:**
                - ONE question at a time
                - Make it specific to their resume
                - Challenge weak or vague answers
                - Stay in technical territory - NO behavioral questions yet
                "

/-- The `'BEHAVIORAL'` entry of `phase_instructions`. -/
def behavioral_phase_block : String :=
  "
                **CURRENT PHASE: BEHAVIORAL & SOFT SKILLS**

                **YOUR IMMEDIATE GOAL:**
                - Shift from technical to behavioral questions
                - Assess team fit, communication, and work style
                - Focus on real situations and examples

                **What to Cover:**
                - Teamwork and collaboration
                - Handling conflict or pressure
                - Communication with non-technical stakeholders
                - Learning from failures
                - Leadership or mentorship

                **Example Questions:**
                - \"Tell me about a time you disagreed with a team member. How did you handle it?\"
                - \"Describe a situation where you had to explain a complex technical concept to a non-technical person\"
                - \"What's a project that didn't go as planned? What did you learn?\"

                **CONSTRAINTS:**
                - ONE question at a time
                - Ask for SPECIFIC examples (use STAR format mentally)
                - NO more technical questions - you're assessing personality and fit now
                - Listen for communication skills and self-awareness
                "

/-- The `'WRAP_UP'` entry of `phase_instructions`. -/
def wrap_up_phase_block : String :=
  "
                **CURRENT PHASE: CONCLUSION**

                **YOUR IMMEDIATE GOAL:**
                - Start wrapping up the interview
                - Thank \x7bcandidate_name\x7d for their time
                - Ask if they have any questions for you
                - Provide brief, positive feedback
                - End the interview gracefully

                **What to Say:**
                1. \"Thank you for your time today, \x7bcandidate_name\x7d. You shared some great insights.\"
                2. \"Before we wrap up - do you have any questions for me about the role or the team?\"
                3. After their response (or if none): \"Great! We'll be in touch soon. Thanks again and have a great day!\"

                **CONSTRAINTS:**
                - Keep it SHORT and professional
                - Be positive (save critical feedback for the written report)
                - DO NOT ask more interview questions
                - Make them feel good about the experience
                - Signal clearly that the interview is ending
                "

/-- The `difficulty_instructions` dict, in insertion order. -/
def difficulty_instructions : List (String × String) := [
  ("easy", easy_mode_block),
  ("medium", medium_mode_block),
  ("hard", hard_mode_block)
]

/-- The `phase_instructions` dict, in insertion order. -/
def phase_instructions : List (String × String) := [
  ("INTRODUCTION", introduction_phase_block),
  ("TECHNICAL", technical_phase_block),
  ("BEHAVIORAL", behavioral_phase_block),
  ("WRAP_UP", wrap_up_phase_block)
]

/-- `InterviewService.build_interview_system_prompt` (lines 44-249):
selects the difficulty block by `difficulty.lower()` with the `medium`
block as the `dict.get` default, selects the phase block by `phase` with
the `INTRODUCTION` block as default, substitutes the candidate name into
the phase block's placeholder positions, and interpolates everything into
the fixed surrounding template.  Total: no input can make it raise. -/
def build_interview_system_prompt (job_description resume_text candidate_name : String)
    (difficulty : String) (phase : String) : String :=
  let diff_instruction :=
    dictGet difficulty_instructions (strLower difficulty) medium_mode_block
  let phase_instruction :=
    strReplace (dictGet phase_instructions phase introduction_phase_block)
      "\x7bcandidate_name\x7d" candidate_name
  "
                You are a **Senior Hiring Manager** conducting a professional technical interview for a software engineering role.

                === JOB DESCRIPTION ===
                "
    ++ job_description
    ++ "

                === CANDIDATE RESUME ===
                "
    ++ resume_text
    ++ "

                === YOUR ROLE & RESPONSIBILITIES ===
                You are evaluating "
    ++ candidate_name
    ++ " for this position. Act professionally, analytically, and strategically.

                === CRITICAL INSTRUCTIONS ===

                1. **PROFESSIONAL CONDUCT**
                - Address the candidate as "
    ++ candidate_name
    ++ " occasionally to maintain rapport
                - Maintain a professional yet conversational tone
                - Be respectful but evaluative - you're assessing fit for the role

                2. **QUESTION STRATEGY**
                - Ask **ONE question at a time** - never list multiple questions
                - **NEVER repeat a question** you've already asked
                - Review the conversation history carefully before asking
                - If you've covered a topic, move to a different area

                3. **DYNAMIC FOLLOW-UPS**
                - **ALWAYS read the candidate's previous answer** before responding
                - Ask relevant follow-up questions based on their specific answer
                - If they mention a technology/project, dig deeper into it
                - If their answer is vague, ask for concrete examples
                - If their answer is strong, probe edge cases or advanced scenarios

                4. **DIFFICULTY LEVEL: "
    ++ strUpper difficulty
    ++ "**
                "
    ++ diff_instruction
    ++ "

                5. **RESPONSE FORMAT**
                - Keep responses under 3 sentences (will be spoken aloud)
                - Start by reacting to their answer (\"That's interesting...\", \"I see...\", \"Good point...\")
                - Then ask your next question naturally

                6. **INTERVIEW FLOW**
                - If this is the start, warmly ask them to introduce themselves
                - Cover: background, technical skills, problem-solving, behavioral questions
                - Adapt based on their resume and the job requirements
                - Progress logically through topics - don't jump randomly

                7. **EVALUATION MINDSET**
                - You're not just asking questions - you're assessing competency
                - Listen for: clarity, depth of knowledge, communication skills
                - Challenge weak answers politely
                - Acknowledge strong answers but keep probing

                8. **NAME FIDELITY**
                - The candidate's official name is **"
    ++ candidate_name
    ++ "**
                - Speech-to-text may generate phonetic errors (e.g., 'Raheem' instead of 'Zayeem')
                - You must ALWAYS use **"
    ++ candidate_name
    ++ "**
                - If the transcript shows a different but similar-sounding name, assume it is a typo and ignore it

                9. **NO META-TEXT**
                    - Do NOT include placeholder text like '*Awaiting response*', '[End of turn]', or any actions in asterisks
                    - Only output the spoken response content without UI cues or status markers

                **Remember:** You have full conversation history. Use it to create a coherent, adaptive interview experience.

                "
    ++ phase_instruction
    ++ "

                ⚠️ **CRITICAL:** The CURRENT PHASE instruction above takes ABSOLUTE PRIORITY. Follow it strictly to maintain interview flow.
            "

/-- `InterviewService.build_feedback_system_prompt` (lines 380-458):
a fixed instruction block with no interpolation. -/
def build_feedback_system_prompt : String :=
  "
            You are a **Senior Technical Interviewer Manager** conducting a thorough post-interview evaluation.

            Your role is to provide **critical, specific, and actionable feedback** based ONLY on the interview transcript provided.

            === EVALUATION CRITERIA ===

            Analyze the candidate's performance across:
            1. **Technical Accuracy**: Did they demonstrate correct understanding of concepts?
            2. **Communication Clarity**: Were answers clear, structured, and well-articulated?
            3. **Depth of Knowledge**: Did they provide specifics, examples, and details?
            4. **Problem-Solving Approach**: Did they think through problems methodically?
            5. **Relevance**: Did answers address the question asked?

            === CRITICAL INSTRUCTIONS ===

            1. **STRICT GROUNDING RULE - NO HALLUCINATIONS**
            - **YOU MUST ONLY ANALYZE TEXT PRESENT IN THE CONVERSATION HISTORY**
            - DO NOT hallucinate topics that were not discussed
            - DO NOT invent technologies, frameworks, or concepts the candidate never mentioned
            - DO NOT use example phrases like \"React\", \"PostgreSQL\", \"Spring Boot\" unless EXPLICITLY stated by the candidate
            - If you cannot find evidence in the transcript, do NOT make assumptions

            2. **MANDATORY CITATION RULE**
            - For EVERY improvement you suggest, you MUST quote the exact sentence the user said that triggered it
            - Format: \"When you said '[EXACT QUOTE]', this was problematic because...\"
            - If you cannot find an exact quote, you cannot make that improvement suggestion
            - NO GENERIC ADVICE - every piece of feedback must be grounded in the actual conversation

            3. **SHORT INTERVIEW HANDLING**
            - If the interview has fewer than 4 exchanges or lacks technical depth:
                * Give a neutral rating (5-7)
                * Explicitly state: \"The interview was brief and didn't cover enough topics for a comprehensive evaluation\"
                * Provide general advice: \"Complete a longer session to demonstrate your full capabilities\"
                * DO NOT invent technical flaws that weren't demonstrated

            4. **BE SPECIFIC - WHEN EVIDENCE EXISTS**
            - If the candidate gave a vague answer, quote it exactly and explain why it was vague
            - If they made a technical error, cite the exact statement and correct it
            - If they struggled with a concept, reference the specific exchange
            - Always tie feedback to actual evidence from the conversation

            5. **RATING SCALE (out of 10)**
            - 1-3: Poor - Major gaps, unclear communication, incorrect answers (MUST have clear evidence)
            - 4-5: Below Average - Some knowledge but lacks depth or clarity
            - 6-7: Average - Solid foundation but room for improvement
            - 8-9: Good - Strong performance with minor areas to improve
            - 10: Exceptional - Outstanding technical depth and communication

            6. **JSON OUTPUT STRUCTURE**
            Strictly follow this schema:
            - \"rating\": integer (1-10)
            - \"feedback\": string (2-3 paragraphs of analysis)
            - \"improvements\": array of strings (each with quoted evidence + suggestion)

            === OUTPUT FORMAT ===

            Return a valid JSON object with this EXACT structure (no markdown, no extra text):

            \x7b
                \"rating\": <integer between 1-10>,
                \"feedback\": \"<2-3 paragraph detailed analysis. Reference ONLY what actually happened. If brief, acknowledge that.>\",
                \"improvements\": [
                    \"Quote: '[EXACT USER QUOTE]' - Suggestion: [How to improve this specific response]\",
                    \"Quote: '[ANOTHER EXACT QUOTE]' - Suggestion: [Specific improvement]\",
                    \"[General advice based on interview length/depth if applicable]\"
                ]
            \x7d

            **FINAL REMINDERS:**
            - Every improvement MUST have a quoted sentence from the candidate (unless it's general length advice)
            - If the interview was too short, be honest - don't fabricate problems
            - NEVER mention technologies not discussed by the candidate
            - When in doubt: be truthful and general rather than specific and fabricated
            - Your credibility depends on grounding every claim in actual evidence

            **Your goal:** Provide honest, evidence-based feedback that helps the candidate improve based on what ACTUALLY happened.
        "

/-- A string is an infix of itself (on character data). -/
theorem infix_str_refl (x : String) : x.data <:+: x.data := ⟨[], [], by simp⟩

/-- Extending a string on the right preserves an infix (on character data). -/
theorem infix_str_left (x y z : String) (h : x.data <:+: y.data) :
    x.data <:+: (y ++ z).data := by
  obtain ⟨s, t, hst⟩ := h
  exact ⟨s, t ++ z.data, by simp [← hst]⟩

/-- Extending a string on the left preserves an infix (on character data). -/
theorem infix_str_right (x y z : String) (h : x.data <:+: z.data) :
    x.data <:+: (y ++ z).data := by
  obtain ⟨s, t, hst⟩ := h
  exact ⟨y.data ++ s, t, by simp [← hst]⟩

/-- C9: `build_interview_system_prompt` is total over all inputs — it is a
pure function of its five string arguments and cannot raise — and falls
back to the `medium` difficulty block whenever `difficulty.lower()` is not
one of easy/medium/hard, and to the `INTRODUCTION` phase block (with the
candidate name substituted) whenever `phase` is not one of the four
phases: for all such inputs the produced prompt contains the medium block
and the name-substituted INTRODUCTION block. -/
theorem build_interview_system_prompt_fallback
    (job_description resume_text candidate_name difficulty phase : String)
    (hd : strLower difficulty ≠ "easy" ∧ strLower difficulty ≠ "medium" ∧
      strLower difficulty ≠ "hard")
    (hp : phase ≠ "INTRODUCTION" ∧ phase ≠ "TECHNICAL" ∧ phase ≠ "BEHAVIORAL" ∧
      phase ≠ "WRAP_UP") :
    medium_mode_block.data <:+:
      (build_interview_system_prompt job_description resume_text candidate_name
        difficulty phase).data ∧
    (strReplace introduction_phase_block "\x7bcandidate_name\x7d" candidate_name).data <:+:
      (build_interview_system_prompt job_description resume_text candidate_name
        difficulty phase).data := by
  have e1 : (strLower difficulty == "easy") = false := beq_eq_false_iff_ne.mpr hd.1
  have e2 : (strLower difficulty == "medium") = false := beq_eq_false_iff_ne.mpr hd.2.1
  have e3 : (strLower difficulty == "hard") = false := beq_eq_false_iff_ne.mpr hd.2.2
  have p1 : (phase == "INTRODUCTION") = false := beq_eq_false_iff_ne.mpr hp.1
  have p2 : (phase == "TECHNICAL") = false := beq_eq_false_iff_ne.mpr hp.2.1
  have p3 : (phase == "BEHAVIORAL") = false := beq_eq_false_iff_ne.mpr hp.2.2.1
  have p4 : (phase == "WRAP_UP") = false := beq_eq_false_iff_ne.mpr hp.2.2.2
  have hdiff : dictGet difficulty_instructions (strLower difficulty) medium_mode_block
      = medium_mode_block := by
    simp [dictGet, difficulty_instructions, List.lookup, e1, e2, e3]
  have hphase : dictGet phase_instructions phase introduction_phase_block
      = introduction_phase_block := by
    simp [dictGet, phase_instructions, List.lookup, p1, p2, p3, p4]
  constructor
  · simp only [build_interview_system_prompt, hdiff, hphase]
    apply infix_str_left
    apply infix_str_left
    apply infix_str_left
    apply infix_str_left
    apply infix_str_left
    apply infix_str_left
    apply infix_str_left
    exact infix_str_right _ _ _ (infix_str_refl _)
  · simp only [build_interview_system_prompt, hdiff, hphase]
    apply infix_str_left
    exact infix_str_right _ _ _ (infix_str_refl _)

/-- C9 witness: the unrecognized inputs `difficulty = "banana"` and
`phase = "LUNCH"` take the fallback path. -/
theorem build_interview_system_prompt_fallback_witness :
    (strLower "banana" ≠ "easy" ∧ strLower "banana" ≠ "medium" ∧
      strLower "banana" ≠ "hard") ∧
    ("LUNCH" : String) ≠ "INTRODUCTION" ∧
    medium_mode_block.data <:+:
      (build_interview_system_prompt "a job" "a resume" "Bob" "banana" "LUNCH").data :=
  ⟨by decide, by decide,
    (build_interview_system_prompt_fallback "a job" "a resume" "Bob" "banana" "LUNCH"
      (by decide) (by decide)).1⟩

/-! ### The speech-synthesis step (C3) and the service state (C6)

`InterviewService.text_to_speech` (lines 335-361) sanitizes the text,
asks Deepgram to write the synthesized audio into a freshly named
temporary file, reads the file back, base64-encodes the bytes, deletes
the file, and returns the encoding; any exception anywhere in the `try`
body is caught, logged, and turned into `None`.  The external effects are
an oracle (`TTSEnv`): whether the Deepgram save call succeeds, what a
successful read returns (`none` models an exception while opening or
reading), whether `os.path.exists` sees the file, whether `os.remove`
succeeds, and the `base64.b64encode` function.  Alongside the result we
record the trace of filesystem-affecting calls the run performs, so that
"deletion was attempted" is a statement about the trace. -/

/-- The single piece of mutable service-instance state:
`self.candidate_name` (initialized to `None` in `__init__`). -/
structure SvcState where
  candidate_name : Option String
  deriving DecidableEq, Repr

/-- Filesystem-affecting calls of `text_to_speech`, in program order. -/
inductive FsEvent where
  | save (filename : String) (text : String)
  | readFile (filename : String)
  | removeAttempt (filename : String)
  deriving DecidableEq, Repr

/-- Whether an event is the Deepgram save call. -/
def FsEvent.isSave : FsEvent → Bool
  | .save _ _ => true
  | _ => false

/-- Whether an event is a call to `os.remove`. -/
def FsEvent.isRemoveAttempt : FsEvent → Bool
  | .removeAttempt _ => true
  | _ => false

/-- Oracle for the external effects of one `text_to_speech` call. -/
structure TTSEnv where
  saveOk : Bool
  readResult : Option String
  fileExists : Bool
  removeOk : Bool
  b64encode : String → String

/-- `InterviewService.text_to_speech` (lines 335-361): result plus the
trace of filesystem-affecting calls.  An oracle failure at any step
models the corresponding Python exception, which the single `except`
clause turns into a `None` result. -/
def text_to_speech (env : TTSEnv) (st : SvcState) (filename text : String) :
    Option String × List FsEvent :=
  let sanitized_text := _sanitize_for_speech st.candidate_name text
  if env.saveOk = false then
    (none, [FsEvent.save filename sanitized_text])
  else
    match env.readResult with
    | none => (none, [FsEvent.save filename sanitized_text, FsEvent.readFile filename])
    | some audio_data =>
      let base64_audio := env.b64encode audio_data
      if env.fileExists then
        if env.removeOk then
          (some base64_audio,
           [FsEvent.save filename sanitized_text, FsEvent.readFile filename,
            FsEvent.removeAttempt filename])
        else
          (none,
           [FsEvent.save filename sanitized_text, FsEvent.readFile filename,
            FsEvent.removeAttempt filename])
      else
        (some base64_audio,
         [FsEvent.save filename sanitized_text, FsEvent.readFile filename])

/-- An oracle where the Deepgram save succeeds (the temporary file is
created) but reading the file back raises. -/
def ttsReadFailureEnv : TTSEnv := ⟨true, none, true, true, fun s => s⟩

/-- C3 counterexample: with the temporary file created (the save call is
in the trace) but the read failing, `text_to_speech` returns `None`
without ever attempting to delete the file — cleanup is not attempted on
this exit path. -/
theorem text_to_speech_skips_cleanup_on_read_failure :
    ((text_to_speech ttsReadFailureEnv ⟨none⟩ "temp_1.wav" "Hello").2.any
      (fun e => e.isSave)) = true ∧
    ((text_to_speech ttsReadFailureEnv ⟨none⟩ "temp_1.wav" "Hello").2.any
      (fun e => e.isRemoveAttempt)) = false ∧
    (text_to_speech ttsReadFailureEnv ⟨none⟩ "temp_1.wav" "Hello").1 = none := by
  decide

/-- C3 amended: deletion of the temporary file is attempted exactly on
the paths where the save call and the read both succeed and the file
exists — on an exit caused by a failure after the file was created no
deletion is attempted — and a failing deletion does not leave the primary
result intact: it turns the whole step's result into `None`. -/
theorem text_to_speech_cleanup_spec (env : TTSEnv) (st : SvcState) (filename text : String) :
    (((text_to_speech env st filename text).2.any (fun e => e.isRemoveAttempt)) = true ↔
      env.saveOk = true ∧ env.readResult ≠ none ∧ env.fileExists = true) ∧
    (∀ audio_data, env.saveOk = true → env.readResult = some audio_data →
      env.fileExists = true → env.removeOk = false →
      (text_to_speech env st filename text).1 = none) := by
  obtain ⟨s, r, f, rm, b⟩ := env
  constructor
  · cases s <;> cases r <;> cases f <;> cases rm <;>
      simp [text_to_speech, FsEvent.isRemoveAttempt]
  · intro audio_data hs hr hf hrm
    subst hs hr hf hrm
    simp [text_to_speech]

/-- C3 amended-claim witness: with every external step succeeding except
`os.remove`, deletion is attempted and the result is nonetheless `None`. -/
theorem text_to_speech_cleanup_spec_witness :
    (((text_to_speech ⟨true, some "bytes", true, false, fun s => s⟩ ⟨none⟩
        "temp_2.wav" "Hi").2.any (fun e => e.isRemoveAttempt)) = true) ∧
    (text_to_speech ⟨true, some "bytes", true, false, fun s => s⟩ ⟨none⟩
        "temp_2.wav" "Hi").1 = none :=
  ⟨((text_to_speech_cleanup_spec ⟨true, some "bytes", true, false, fun s => s⟩ ⟨none⟩
      "temp_2.wav" "Hi").1).mpr ⟨rfl, by decide, rfl⟩,
   (text_to_speech_cleanup_spec ⟨true, some "bytes", true, false, fun s => s⟩ ⟨none⟩
      "temp_2.wav" "Hi").2 "bytes" rfl rfl rfl rfl⟩

/-! ### The turn orchestrator (C4, C6)

`generate_interview_response` (lines 251-291) and
`process_interview_turn` (lines 363-378).  The Groq chat-completion call
is an oracle from the outgoing message list to a result, where
`Except.error` models the provider raising; the `except` clause re-raises
as `Exception(f"Groq API call failed: {e}")`.  The first statement of
`generate_interview_response` is `self.candidate_name = candidate_name` —
an assignment to instance state — so the function maps a `SvcState` to a
`SvcState`.  For these claims the history is taken at value level (the
heap model above settles the aliasing claim C5). -/

/-- `InterviewService.generate_interview_response` (lines 251-291).
Returns the service state after the call and the completion result. -/
def generate_interview_response
    (groq_client : List Msg → Except String String)
    (st : SvcState)
    (resume_text job_description candidate_name : String)
    (messages : List Msg) (difficulty : String) :
    SvcState × Except String String :=
  let st : SvcState := ⟨some candidate_name⟩
  let phase := determine_phase messages
  let system_prompt :=
    build_interview_system_prompt job_description resume_text candidate_name
      difficulty phase
  let api_messages_copy :=
    match messages.getLast? with
    | some last_msg =>
      if last_msg.role == "user" then
        messages.dropLast ++
          [⟨"user", "[System verified name: " ++ candidate_name ++ "] "
              ++ last_msg.content⟩]
      else messages
    | none => messages
  let api_messages := Msg.mk "system" system_prompt :: api_messages_copy
  match groq_client api_messages with
  | Except.ok completion => (st, Except.ok completion)
  | Except.error e => (st, Except.error ("Groq API call failed: " ++ e))

/-- `InterviewService.process_interview_turn` (lines 363-378): run the
completion step, then the speech-synthesis step on its result.  A raised
completion error propagates (the `Except.error` short-circuits); the
synthesis step cannot raise (it returns an `Option`). -/
def process_interview_turn
    (groq_client : List Msg → Except String String) (env : TTSEnv)
    (st : SvcState)
    (resume_text job_description candidate_name : String)
    (messages : List Msg) (difficulty : String) (filename : String) :
    SvcState × Except String (String × Option String) :=
  match generate_interview_response groq_client st resume_text job_description
      candidate_name messages difficulty with
  | (st, Except.error e) => (st, Except.error e)
  | (st, Except.ok response_text) =>
    let audio_data := (text_to_speech env st filename response_text).1
    (st, Except.ok (response_text, audio_data))

/-- C4: a failure anywhere in the speech-synthesis step is non-fatal —
whenever the completion oracle returns `response_text` and the synthesis
step yields no audio, the turn still returns `(response_text, none)`
normally — while a failure of the language-model completion call is
fatal: the turn propagates the wrapped error to the caller. -/
theorem process_interview_turn_failure_modes
    (env : TTSEnv) (st : SvcState)
    (resume_text job_description candidate_name : String)
    (messages : List Msg) (difficulty filename : String) :
    (∀ response_text : String,
      (text_to_speech env ⟨some candidate_name⟩ filename response_text).1 = none →
      (process_interview_turn (fun _ => Except.ok response_text) env st resume_text
          job_description candidate_name messages difficulty filename).2 =
        Except.ok (response_text, none)) ∧
    (∀ e : String,
      (process_interview_turn (fun _ => Except.error e) env st resume_text
          job_description candidate_name messages difficulty filename).2 =
        Except.error ("Groq API call failed: " ++ e)) := by
  constructor
  · intro response_text htts
    simp only [process_interview_turn, generate_interview_response, htts]
  · intro e
    simp only [process_interview_turn, generate_interview_response]

/-- C4 witness: with a synthesis oracle whose Deepgram call raises, the
turn returns the completion text with no audio. -/
theorem process_interview_turn_failure_modes_witness :
    (text_to_speech ⟨false, none, true, true, fun s => s⟩ ⟨some "Ann"⟩ "t.wav" "Hi").1
        = none ∧
    (process_interview_turn (fun _ => Except.ok "Hi")
        ⟨false, none, true, true, fun s => s⟩ ⟨none⟩ "resume" "job" "Ann" [] "medium"
        "t.wav").2 = Except.ok ("Hi", none) :=
  ⟨rfl,
   (process_interview_turn_failure_modes ⟨false, none, true, true, fun s => s⟩ ⟨none⟩
      "resume" "job" "Ann" [] "medium" "t.wav").1 "Hi" rfl⟩

/-- C6 counterexample: a call to `process_interview_turn` does not leave
the service-instance state unchanged: starting from the freshly
constructed state (`candidate_name = None`), one turn for candidate
`"Alice"` leaves `candidate_name = "Alice"` behind. -/
theorem process_interview_turn_mutates_state :
    (process_interview_turn (fun _ => Except.ok "ok")
        ⟨false, none, true, true, fun s => s⟩ ⟨none⟩ "resume" "job" "Alice" [] "medium"
        "t.wav").1 ≠ (⟨none⟩ : SvcState) := by
  intro h
  exact Option.noConfusion (congrArg SvcState.candidate_name h)

/-- C6 amended: every call to `process_interview_turn` overwrites the one
piece of mutable instance state, `self.candidate_name`, with the
caller-supplied name (so instance state does change across calls), but
because the overwrite happens before the speech sanitizer reads the name,
the turn's outcome is independent of whatever instance state previous
requests left behind: two calls with the same arguments from arbitrary
prior states return identical results, and both leave
`candidate_name = some name`. -/
theorem process_interview_turn_state_spec
    (groq_client : List Msg → Except String String) (env : TTSEnv)
    (st st' : SvcState)
    (resume_text job_description candidate_name : String)
    (messages : List Msg) (difficulty filename : String) :
    (process_interview_turn groq_client env st resume_text job_description
        candidate_name messages difficulty filename).1 =
      (⟨some candidate_name⟩ : SvcState) ∧
    (process_interview_turn groq_client env st resume_text job_description
        candidate_name messages difficulty filename).2 =
      (process_interview_turn groq_client env st' resume_text job_description
        candidate_name messages difficulty filename).2 := by
  simp only [process_interview_turn, generate_interview_response]
  cases groq_client (Msg.mk "system"
      (build_interview_system_prompt job_description resume_text candidate_name
        difficulty (determine_phase messages)) ::
    match messages.getLast? with
    | some last_msg =>
      if last_msg.role == "user" then
        messages.dropLast ++
          [⟨"user", "[System verified name: " ++ candidate_name ++ "] "
              ++ last_msg.content⟩]
      else messages
    | none => messages) <;>
    simp

/-! ### The feedback generator (C7, C10)

`InterviewService.generate_feedback` (lines 460-493).  `json.loads` is
the Python standard-library JSON parser, an external function at this
embedding's boundary: it is passed in as an oracle producing a `JVal`
(the type of parsed JSON values), with `Except.error` modelling a raised
`JSONDecodeError`.  The Groq call is the same completion oracle as above.
Alongside the result we return whether the completion collaborator was
called at all. -/

/-- A parsed JSON value, as `json.loads` produces it (numbers are kept
abstract as integers; nothing in the claims depends on floats). -/
inductive JVal where
  | null
  | bool (b : Bool)
  | num (n : Int)
  | str (s : String)
  | arr (elems : List JVal)
  | obj (fields : List (String × JVal))

/-- Field lookup in a parsed JSON object. -/
def jLookup (v : JVal) (key : String) : Option JVal :=
  match v with
  | JVal.obj fields => fields.lookup key
  | _ => none

/-- The fixed report `generate_feedback` returns when the transcript
holds fewer than 3 user messages (lines 464-473). -/
def too_short_report : JVal :=
  JVal.obj [
    ("rating", JVal.num 0),
    ("feedback", JVal.str "Interview was too short to provide a meaningful analysis. The conversation contained fewer than 3 exchanges, which is insufficient to evaluate technical skills, communication, or problem-solving abilities. To receive actionable feedback, please complete a longer interview session."),
    ("improvements", JVal.arr [JVal.str "Complete a longer interview session (at least 5-10 exchanges) to demonstrate your full capabilities",
      JVal.str "Ensure you answer questions in detail to give the interviewer enough context to evaluate your skills",
      JVal.str "Practice mock interviews to build confidence for longer sessions"])]

/-- `InterviewService.generate_feedback` (lines 460-493): the short-
interview guard, then one completion request parsed strictly as JSON.
Returns the result and whether the completion oracle was invoked. -/
def generate_feedback
    (json_loads : String → Except String JVal)
    (groq_client : List Msg → Except String String)
    (messages : List Msg) : Except String JVal × Bool :=
  let user_messages := messages.filter (fun msg => msg.role == "user")
  if user_messages.length < 3 then
    (Except.ok too_short_report, false)
  else
    let system_prompt := build_feedback_system_prompt
    let api_messages := Msg.mk "system" system_prompt :: messages
    match groq_client api_messages with
    | Except.error e => (Except.error ("Feedback generation failed: " ++ e), true)
    | Except.ok feedback_json =>
      match json_loads feedback_json with
      | Except.error e => (Except.error ("Feedback generation failed: " ++ e), true)
      | Except.ok parsed => (Except.ok parsed, true)

/-- C7: with fewer than 3 user-authored entries, `generate_feedback`
returns the fixed too-short report — rating 0, the fixed explanatory
feedback text, and exactly three fixed generic improvement suggestions —
and never invokes the completion collaborator, whatever the oracles
would do. -/
theorem generate_feedback_too_short
    (json_loads : String → Except String JVal)
    (groq_client : List Msg → Except String String)
    (messages : List Msg)
    (h : (messages.filter (fun msg => msg.role == "user")).length < 3) :
    generate_feedback json_loads groq_client messages =
      (Except.ok too_short_report, false) ∧
    jLookup too_short_report "rating" = some (JVal.num 0) ∧
    (∃ text : String, jLookup too_short_report "feedback" = some (JVal.str text)) ∧
    (∃ suggestions : List JVal,
      jLookup too_short_report "improvements" = some (JVal.arr suggestions) ∧
      suggestions.length = 3) := by
  refine ⟨?_, rfl, ⟨_, rfl⟩, ⟨_, rfl, rfl⟩⟩
  simp only [generate_feedback, if_pos h]

/-- C7 witness: a transcript with two user messages takes the guard
path. -/
theorem generate_feedback_too_short_witness :
    (([⟨"user", "a"⟩, ⟨"assistant", "b"⟩, ⟨"user", "c"⟩] :
        List Msg).filter (fun msg => msg.role == "user")).length < 3 ∧
    generate_feedback (fun _ => Except.error "never parses")
        (fun _ => Except.error "never called")
        [⟨"user", "a"⟩, ⟨"assistant", "b"⟩, ⟨"user", "c"⟩] =
      (Except.ok too_short_report, false) :=
  ⟨by decide,
   (generate_feedback_too_short (fun _ => Except.error "never parses")
      (fun _ => Except.error "never called")
      [⟨"user", "a"⟩, ⟨"assistant", "b"⟩, ⟨"user", "c"⟩] (by decide)).1⟩

/-- C10: past the guard, whatever value the JSON parser produces from the
collaborator's reply is returned exactly as parsed, with no validation of
the report shape — the theorem quantifies over every parser and every
parsed value, so in particular values whose `rating` is missing,
non-integer or out of the 1-10 range, and whose `feedback` or
`improvements` are absent or of other types, pass through unchanged. -/
theorem generate_feedback_returns_parsed_unvalidated
    (json_loads : String → Except String JVal) (reply : String) (parsed : JVal)
    (messages : List Msg)
    (hcount : 3 ≤ (messages.filter (fun msg => msg.role == "user")).length)
    (hparse : json_loads reply = Except.ok parsed) :
    generate_feedback json_loads (fun _ => Except.ok reply) messages =
      (Except.ok parsed, true) := by
  have hguard : ¬ (messages.filter (fun msg => msg.role == "user")).length < 3 := by
    omega
  simp only [generate_feedback, if_neg hguard, hparse]

/-- C10 witness: a reply parsed to `{"rating": "excellent"}` — rating a
string, no feedback, no improvements — is returned as-is. -/
theorem generate_feedback_returns_parsed_unvalidated_witness :
    3 ≤ (([⟨"user", "a"⟩, ⟨"user", "b"⟩, ⟨"user", "c"⟩] :
        List Msg).filter (fun msg => msg.role == "user")).length ∧
    (fun _ : String =>
        (Except.ok (JVal.obj [("rating", JVal.str "excellent")]) : Except String JVal))
        "reply" = Except.ok (JVal.obj [("rating", JVal.str "excellent")]) ∧
    generate_feedback
        (fun _ => Except.ok (JVal.obj [("rating", JVal.str "excellent")]))
        (fun _ => Except.ok "reply")
        [⟨"user", "a"⟩, ⟨"user", "b"⟩, ⟨"user", "c"⟩] =
      (Except.ok (JVal.obj [("rating", JVal.str "excellent")]), true) :=
  ⟨by decide, rfl,
   generate_feedback_returns_parsed_unvalidated
      (fun _ => Except.ok (JVal.obj [("rating", JVal.str "excellent")])) "reply"
      (JVal.obj [("rating", JVal.str "excellent")])
      [⟨"user", "a"⟩, ⟨"user", "b"⟩, ⟨"user", "c"⟩] (by decide) rfl⟩

end BotInterviewer
